import Mathlib

/-!
Shallow embedding of the FMCSA-Automation-API repository.

The repository has two code files: `src/server.ts` (an Express endpoint
`POST /upload-drivers/:company_uuid` with an API-key middleware) and
`src/main.ts` (a Playwright automation routine `run`). JavaScript values that
can appear as fields of a parsed JSON driver record are modelled by `JsVal`;
the behaviour of the browser and of the external portal, as observed by one
execution of `run`, is modelled by `RunWorld`. Awaited browser operations that
can throw are modelled by `Option String` fields (`none` = succeeds,
`some msg` = throws an error whose message is `msg`).
-/

/-- A JavaScript value as it can appear in a parsed JSON driver record or as
one of its fields. Nested arrays are not needed by any property considered
here, so `obj` is the only composite constructor. -/
inductive JsVal where
  | str (s : String)
  | num (n : Int)
  | boolean (b : Bool)
  | jsNull
  | jsUndefined
  | obj (fields : List (String × JsVal))

/-- JavaScript template-literal stringification, as applied by the
interpolation on server.ts line 61 to each driver field. A string is inserted
verbatim; `undefined` renders as the literal text `undefined`. -/
def jsToString : JsVal → String
  | .str s => s
  | .num n => toString n
  | .boolean b => if b then "true" else "false"
  | .jsNull => "null"
  | .jsUndefined => "undefined"
  | .obj _ => "[object Object]"

/-- The `error.message` text of the TypeError raised by JavaScript property
access on `null` (the `TypeError:` name prefix is not part of the message
relayed by the handler). -/
def nullFieldAccessMsg (k : String) : String :=
  "Cannot read properties of null (reading " ++ k ++ ")"

/-- The `error.message` text of the TypeError raised by JavaScript property
access on `undefined`. -/
def undefinedFieldAccessMsg (k : String) : String :=
  "Cannot read properties of undefined (reading " ++ k ++ ")"

/-- JavaScript property access `d.K` on a parsed JSON value: access on
`null` or `undefined` throws a TypeError; on any other receiver a missing
key yields `undefined` (primitives are boxed and have none of these
properties). -/
def JsVal.getField (v : JsVal) (k : String) : Except String JsVal :=
  match v with
  | .jsNull => .error (nullFieldAccessMsg k)
  | .jsUndefined => .error (undefinedFieldAccessMsg k)
  | .obj fields =>
    .ok (match fields.lookup k with
         | some x => x
         | none => .jsUndefined)
  | _ => .ok .jsUndefined

/-- The fixed TSV header row (server.ts line 59). -/
def tsvHeader : String :=
  "LastName\tFirstName\tDOB\tCDL\tCountry\tState\tQueryType"

/-- One TSV row for one driver record (server.ts lines 60-62): the template
literal reads the seven fields left to right — the first throwing access
aborts the row — and the stringified values are joined by a tab character
in the fixed column order. -/
def serializeRow (d : JsVal) : Except String String := do
  let lastName ← d.getField "LastName"
  let firstName ← d.getField "FirstName"
  let dob ← d.getField "DOB"
  let cdl ← d.getField "CDL"
  let country ← d.getField "Country"
  let state ← d.getField "State"
  let queryType ← d.getField "QueryType"
  return String.intercalate "\t"
    [jsToString lastName, jsToString firstName, jsToString dob,
     jsToString cdl, jsToString country, jsToString state,
     jsToString queryType]

/-- server.ts lines 60-62: `drivers.map` serializes the records left to
right; the first throwing record aborts the whole map. -/
def serializeRows : List JsVal → Except String (List String)
  | [] => .ok []
  | d :: ds => do
    let row ← serializeRow d
    let rest ← serializeRows ds
    return row :: rest

/-- The full TSV content (server.ts lines 59-63): header and rows joined by
newline characters, or the error thrown while producing the rows. -/
def tsvContent (drivers : List JsVal) : Except String String := do
  let rows ← serializeRows drivers
  return String.intercalate "\n" (tsvHeader :: rows)

/-- The parsed JSON body of the request as seen by the handler after the
`express.json()` middleware: either not an array at all, or an array of
arbitrary JSON values. -/
inductive ReqBody where
  | notArray
  | array (drivers : List JsVal)

/-- JavaScript truthiness of an optional string value: an absent value and
the empty string are falsy. -/
def strTruthy : Option String → Bool
  | none => false
  | some s => s != ""

/-- Outcome of the `authenticateAPIKey` middleware: pass the request on to
the handler, or answer 403 immediately. -/
inductive AuthOutcome where
  | proceed
  | forbidden
  deriving DecidableEq, Repr

/-- server.ts lines 14-29. `if (!validApiKey)` is JavaScript truthiness, so an
unset or empty `API_KEY` disables authentication; otherwise
`if (!apiKey || apiKey !== validApiKey)` rejects a missing, empty, or
mismatching `x-api-key` header. -/
def authenticateAPIKey (validApiKey : Option String) (apiKey : Option String) :
    AuthOutcome :=
  if !strTruthy validApiKey then
    .proceed
  else if !strTruthy apiKey || apiKey != validApiKey then
    .forbidden
  else
    .proceed

/-- The login page URL (main.ts line 37). -/
def loginUrl : String := "https://secure.login.gov/"

/-- The bulk upload page URL (main.ts lines 142-144). -/
def bulkUrl : String := "https://clearinghouse.fmcsa.dot.gov/Query/Add/Bulk"

/-- Stand-in for the timeout error message of the unguarded one-time-code
fill (main.ts line 99, library default 30000 ms wait). -/
def otpTimeoutMsg : String :=
  "Timeout 30000ms exceeded waiting for one-time-code input"

/-- Stand-in for the timeout error message of the required employer selector
wait (main.ts lines 172-173, 10000 ms). -/
def employerTimeoutMsg : String :=
  "Timeout 10000ms exceeded waiting for #EmployerId"

/-- Stand-in for the timeout error message of the required upload control
wait (main.ts lines 200-201, 10000 ms). -/
def bulkFileTimeoutMsg : String :=
  "Timeout 10000ms exceeded waiting for #BulkFile"

/-- The exact message of the missing-employer-identifier error
(main.ts line 179). -/
def uuidRequiredMsg : String :=
  "Company UUID is required. Please provide it as an argument or set COMPANY_UUID in your environment variables."

/-- The slice of `process.env` read inside `run` that affects its control
flow. `HEADLESS`, `RECORD_VIDEO`, `FMCSA_EMAIL`, `FMCSA_PASSWORD` and
`TOTP_SECRET` only alter launch options and the strings typed into the page,
never the control flow, and are not modelled. -/
structure RunEnv where
  companyUUID : Option String
  deriving DecidableEq, Repr

/-- The two optional arguments of `run` (main.ts line 13). -/
structure RunConfig where
  dataFilePath : Option String
  companyUUID : Option String
  deriving DecidableEq, Repr

/-- Behaviour of the browser and the external portal as observed by one
execution of `run`. Each `...Err` field is an awaited operation that either
succeeds (`none`) or throws with the given message; each `...Present` field
says whether the corresponding element lookup finds its element. -/
structure RunWorld where
  launchErr : Option String          -- chromium.launch, main.ts line 20
  newContextErr : Option String      -- browser.newContext, line 28
  newPageErr : Option String         -- context.newPage, line 32
  gotoLoginErr : Option String       -- page.goto login page, line 37
  emailPresent : Bool                -- email input lookup, lines 54-58
  passwordPresent : Bool             -- password input lookup, lines 61-65
  loginBtnPresent : Bool             -- login submit button, lines 68-70
  otpPresent : Bool                  -- one-time-code input, lines 90-99
  submitBtnPresent : Bool            -- post-2FA submit button, lines 103-107
  urlAfter2FA : String               -- page.url() at line 142
  gotoBulkErr : Option String        -- page.goto bulk page, line 144
  renavToBulk : Bool                 -- post-nav continue flow re-navigates, lines 160-163
  gotoBulkRetryErr : Option String   -- page.goto bulk page retry, line 162
  employerSelectPresent : Bool       -- #EmployerId wait, lines 172-173
  selectOptionErr : Option String    -- employerSelect.selectOption, line 182
  nextBtnPresent : Bool              -- Next button lookup, lines 189-195
  bulkFilePresent : Bool             -- #BulkFile wait, lines 200-201
  setFilesErr : Option String        -- fileInput.setInputFiles, line 205
  screenshotErr : Option String      -- page.screenshot, line 216
  deriving DecidableEq, Repr

/-- Observable outcome of the body of the `try` block of `run`: the URL
navigations attempted, the log lines produced by the element interactions, a
flag for the completed upload, and the first error raised (which in the
source propagates to the top-level catch). -/
structure BodyOut where
  navs : List String
  actions : List String
  uploadDone : Bool
  err : Option String
  deriving DecidableEq, Repr

/-- main.ts lines 197-211: the required #BulkFile wait, then the file
upload. The uploaded path is the resolved data file path, or the bundled
sample when no argument was given (line 204). -/
def uploadPhase (w : RunWorld) (cfg : RunConfig) (navs acts : List String) :
    BodyOut :=
  if !w.bulkFilePresent then
    { navs := navs, actions := acts, uploadDone := false,
      err := some bulkFileTimeoutMsg }
  else
    match w.setFilesErr with
    | some e => { navs := navs, actions := acts, uploadDone := false, err := some e }
    | none =>
      let uploaded := match cfg.dataFilePath with
        | some p => p
        | none => "../data/sample.tsv"
      { navs := navs,
        actions := acts ++ ["File uploaded: " ++ uploaded,
          "Automation steps completed successfully!"],
        uploadDone := true, err := none }

/-- main.ts lines 168-195: the required #EmployerId wait, the employer
identifier defaulting (`companyUUID || process.env.COMPANY_UUID`, line 176)
and its required-ness check (`if (!targetUUID) throw`, lines 178-180), the
employer selection, then the tolerated Next-button lookup (guarded by a
count check, so its absence only logs). -/
def employerPhase (w : RunWorld) (env : RunEnv) (cfg : RunConfig)
    (navs acts : List String) : BodyOut :=
  if !w.employerSelectPresent then
    { navs := navs, actions := acts, uploadDone := false,
      err := some employerTimeoutMsg }
  else
    let targetUUID :=
      if strTruthy cfg.companyUUID then cfg.companyUUID else env.companyUUID
    if !strTruthy targetUUID then
      { navs := navs, actions := acts, uploadDone := false,
        err := some uuidRequiredMsg }
    else
      match w.selectOptionErr with
      | some e => { navs := navs, actions := acts, uploadDone := false, err := some e }
      | none =>
        let acts2 := acts ++ ["Employer selected."] ++
          (if w.nextBtnPresent then ["Clicked Next."]
           else ["Next button not found, checking if file upload is already visible..."])
        uploadPhase w cfg navs acts2

/-- main.ts lines 150-166: the second continue-button pass after navigating.
Every lookup and click in it is guarded by count and visibility checks, so
this phase can only raise through the optional re-navigation to the bulk
page (lines 160-163), modelled by `renavToBulk` and `gotoBulkRetryErr`. -/
def postNavContinuePhase (w : RunWorld) (env : RunEnv) (cfg : RunConfig)
    (navs acts : List String) : BodyOut :=
  if w.renavToBulk then
    match w.gotoBulkRetryErr with
    | some e =>
      { navs := navs ++ [bulkUrl], actions := acts, uploadDone := false,
        err := some e }
    | none => employerPhase w env cfg (navs ++ [bulkUrl]) acts
  else
    employerPhase w env cfg navs acts

/-- main.ts lines 139-146: navigate to the bulk upload page when the current
URL differs from it. -/
def bulkNavPhase (w : RunWorld) (env : RunEnv) (cfg : RunConfig)
    (navs acts : List String) : BodyOut :=
  if w.urlAfter2FA != bulkUrl then
    match w.gotoBulkErr with
    | some e =>
      { navs := navs ++ [bulkUrl], actions := acts, uploadDone := false,
        err := some e }
    | none => postNavContinuePhase w env cfg (navs ++ [bulkUrl]) acts
  else
    postNavContinuePhase w env cfg navs acts

/-- The body of the `try` block of `run` (main.ts lines 34-211). The login
form fills (lines 50-76) sit inside an inner try whose catch absorbs every
error, so a missing email input, password input or login button only
produces log lines. The one-time-code fill (line 99) has no guard and no
inner catch: when the input is absent the fill times out and the error
propagates. The continue-button handling (lines 116-137) is fully guarded
and cannot raise, so it has no observable effect here. -/
def tryBody (w : RunWorld) (env : RunEnv) (cfg : RunConfig) : BodyOut :=
  match w.gotoLoginErr with
  | some e =>
    { navs := [loginUrl], actions := [], uploadDone := false, err := some e }
  | none =>
    let loginActs :=
      (if w.emailPresent then ["Filled email."] else []) ++
      (if w.passwordPresent then ["Filled password."] else []) ++
      (if w.loginBtnPresent then []
       else ["Could not auto-fill login form. Please fill manually."])
    if !w.otpPresent then
      { navs := [loginUrl], actions := loginActs, uploadDone := false,
        err := some otpTimeoutMsg }
    else
      let acts := loginActs ++ ["Filled 2FA code."] ++
        (if w.submitBtnPresent then ["Submitted 2FA."] else [])
      bulkNavPhase w env cfg [loginUrl] acts

/-- Whether `run` resolved or rejected, and with which error message. -/
inductive RunResult where
  | resolved
  | rejected (msg : String)
  deriving DecidableEq, Repr

/-- The observable final state of one execution of `run`. `caughtErr` is the
error received by the top-level catch, when the try body raised one. -/
structure RunFinal where
  navs : List String
  actions : List String
  uploadDone : Bool
  caughtErr : Option String
  screenshotTaken : Bool
  contextClosed : Bool
  browserClosed : Bool
  result : RunResult
  deriving DecidableEq, Repr

/-- main.ts `run` (lines 13-223). Browser launch, context creation and page
creation happen before the `try`, so their failures propagate with no
screenshot and no close. The catch (lines 213-217) logs, takes a screenshot,
and does not rethrow: when the screenshot succeeds the caught error is
swallowed and `run` resolves; when the screenshot throws, that new error
propagates after the finally. The finally (lines 218-222) closes the context
and the browser; the close calls are modelled as succeeding. -/
def run (w : RunWorld) (env : RunEnv) (cfg : RunConfig) : RunFinal :=
  match w.launchErr with
  | some e =>
    { navs := [], actions := [], uploadDone := false, caughtErr := none,
      screenshotTaken := false, contextClosed := false, browserClosed := false,
      result := .rejected e }
  | none =>
  match w.newContextErr with
  | some e =>
    { navs := [], actions := [], uploadDone := false, caughtErr := none,
      screenshotTaken := false, contextClosed := false, browserClosed := false,
      result := .rejected e }
  | none =>
  match w.newPageErr with
  | some e =>
    { navs := [], actions := [], uploadDone := false, caughtErr := none,
      screenshotTaken := false, contextClosed := false, browserClosed := false,
      result := .rejected e }
  | none =>
    let b := tryBody w env cfg
    match b.err with
    | none =>
      { navs := b.navs, actions := b.actions, uploadDone := b.uploadDone,
        caughtErr := none, screenshotTaken := false,
        contextClosed := true, browserClosed := true, result := .resolved }
    | some e =>
      match w.screenshotErr with
      | none =>
        { navs := b.navs, actions := b.actions, uploadDone := b.uploadDone,
          caughtErr := some e, screenshotTaken := true,
          contextClosed := true, browserClosed := true, result := .resolved }
      | some e2 =>
        { navs := b.navs, actions := b.actions, uploadDone := b.uploadDone,
          caughtErr := some e, screenshotTaken := false,
          contextClosed := true, browserClosed := true,
          result := .rejected e2 }

/-- An HTTP response of the endpoint, with its JSON body fields. -/
inductive Response where
  | ok (message : String) (file : String)
  | badRequest (error : String)
  | forbidden (error : String)
  | serverError (error : String) (details : String)
  deriving DecidableEq, Repr

/-- The HTTP status code each response is sent with (server.ts lines 25, 53,
86, 90). -/
def Response.status : Response → Nat
  | .ok _ _ => 200
  | .badRequest _ => 400
  | .forbidden _ => 403
  | .serverError _ _ => 500

/-- The slice of `process.env` read by the server: `API_KEY` for the
middleware and `COMPANY_UUID` as read later inside `run`. -/
structure ServerEnv where
  apiKey : Option String
  companyUUID : Option String
  deriving DecidableEq, Repr

/-- One request to `POST /upload-drivers/:company_uuid`: the `x-api-key`
header, the path parameter, and the parsed JSON body. -/
structure HttpRequest where
  xApiKey : Option String
  companyUuidParam : String
  body : ReqBody

/-- The path of the generated upload file for a given `Date.now()` value
(server.ts lines 66-67); the `__dirname`-relative resolution of `path.join`
is abstracted to the repository-relative path. -/
def filePathFor (timestamp : Nat) : String :=
  "data/upload_" ++ toString timestamp ++ ".tsv"

/-- Everything observable of one request: the response sent, the file write
performed (path and content), and whether and how the automation ran. -/
structure HandlerResult where
  response : Response
  fileWritten : Option (String × String)
  runInvoked : Bool
  runTrace : Option RunFinal

/-- server.ts lines 46-92: the `authenticateAPIKey` middleware, then the
handler: the non-empty-array check (lines 52-54), the TSV conversion (59-63),
the file write (66-76), the awaited `run` call (line 81), and the response
(lines 86-91). `timestamp` stands for `Date.now()`. A TypeError thrown by
the rows map (on a null or undefined element) and a rejection of `run` are
both caught by the single handler catch and answered 500 with the error
message. -/
def uploadDriversHandler (senv : ServerEnv) (req : HttpRequest) (w : RunWorld)
    (timestamp : Nat) : HandlerResult :=
  match authenticateAPIKey senv.apiKey req.xApiKey with
  | .forbidden =>
    { response := .forbidden "Forbidden: Invalid or missing API Key",
      fileWritten := none, runInvoked := false, runTrace := none }
  | .proceed =>
    match req.body with
    | .notArray =>
      { response := .badRequest "Invalid input. Expected a non-empty array of drivers.",
        fileWritten := none, runInvoked := false, runTrace := none }
    | .array drivers =>
      if drivers.isEmpty then
        { response := .badRequest "Invalid input. Expected a non-empty array of drivers.",
          fileWritten := none, runInvoked := false, runTrace := none }
      else
        match tsvContent drivers with
        | .error msg =>
          -- the rows map throws before any file write or run call; the
          -- handler catch answers 500 with the TypeError message
          { response := .serverError "Automation failed" msg,
            fileWritten := none, runInvoked := false, runTrace := none }
        | .ok content =>
          let fp := filePathFor timestamp
          let rf := run w { companyUUID := senv.companyUUID }
            { dataFilePath := some fp, companyUUID := some req.companyUuidParam }
          match rf.result with
          | .resolved =>
            { response := .ok "Automation completed successfully" fp,
              fileWritten := some (fp, content), runInvoked := true,
              runTrace := some rf }
          | .rejected msg =>
            { response := .serverError "Automation failed" msg,
              fileWritten := some (fp, content), runInvoked := true,
              runTrace := some rf }

/-- A portal behaviour in which every browser operation succeeds and every
element lookup finds its element. -/
def happyWorld : RunWorld :=
  { launchErr := none, newContextErr := none, newPageErr := none,
    gotoLoginErr := none, emailPresent := true, passwordPresent := true,
    loginBtnPresent := true, otpPresent := true, submitBtnPresent := true,
    urlAfter2FA := loginUrl, gotoBulkErr := none, renavToBulk := false,
    gotoBulkRetryErr := none, employerSelectPresent := true,
    selectOptionErr := none, nextBtnPresent := true, bulkFilePresent := true,
    setFilesErr := none, screenshotErr := none }

/-- The sample driver record of the README payload. -/
def sampleDriver : JsVal :=
  .obj [("LastName", .str "Doe"), ("FirstName", .str "John"),
        ("DOB", .str "01/01/1980"), ("CDL", .str "123456789"),
        ("Country", .str "US"), ("State", .str "NY"),
        ("QueryType", .str "1")]

/-- A demo environment for `run` with no configured `COMPANY_UUID`. -/
def envDemo : RunEnv := { companyUUID := none }

/-- A demo argument pair for `run` carrying a file path and an employer
identifier. -/
def cfgDemo : RunConfig :=
  { dataFilePath := some "data/upload_1.tsv", companyUUID := some "employer-1" }

/-- The happy world except that the login-page navigation fails. -/
def navFailWorld : RunWorld :=
  { happyWorld with gotoLoginErr := some "net::ERR_CONNECTION_REFUSED" }

/-- The happy world except that the browser launch itself fails. -/
def launchFailWorld : RunWorld :=
  { happyWorld with launchErr := some "browserType.launch: Executable does not exist" }

/-- The happy world except that the login navigation fails and the
error-path screenshot also fails. -/
def screenshotFailWorld : RunWorld :=
  { happyWorld with gotoLoginErr := some "net::ERR_CONNECTION_REFUSED",
                    screenshotErr := some "page.screenshot: Target closed" }

/-- The happy world except that the one-time-code input never appears. -/
def otpMissingWorld : RunWorld := { happyWorld with otpPresent := false }

/-- The happy world except that the employer selector never appears. -/
def employerMissingWorld : RunWorld :=
  { happyWorld with employerSelectPresent := false }

/-- The happy world except that the upload control never appears. -/
def bulkFileMissingWorld : RunWorld :=
  { happyWorld with bulkFilePresent := false }

/-- The happy world with every tolerated optional element absent. -/
def optionalAbsentWorld : RunWorld :=
  { happyWorld with emailPresent := false, passwordPresent := false,
                    loginBtnPresent := false, submitBtnPresent := false,
                    nextBtnPresent := false }

/-- A demo server environment with authentication disabled. -/
def demoEnv : ServerEnv := { apiKey := none, companyUUID := none }

/-- A demo request with a single sample driver and no API key header. -/
def demoReq : HttpRequest :=
  { xApiKey := none, companyUuidParam := "employer-1",
    body := .array [sampleDriver] }

/-- A non-empty list is not `isEmpty`. -/
lemma isEmpty_false_of_ne_nil {α : Type} {l : List α} (h : l ≠ []) :
    l.isEmpty = false := by
  cases l with
  | nil => exact absurd rfl h
  | cons a as => rfl

/-- The upload phase succeeds and keeps its navigation list when the upload
control is present and the file-set call succeeds. -/
lemma uploadPhase_ok (w : RunWorld) (cfg : RunConfig) (navs acts : List String)
    (hB : w.bulkFilePresent = true) (hS : w.setFilesErr = none) :
    (uploadPhase w cfg navs acts).err = none ∧
    (uploadPhase w cfg navs acts).uploadDone = true ∧
    (uploadPhase w cfg navs acts).navs = navs := by
  simp only [uploadPhase, hB, hS, Bool.not_true, Bool.false_eq_true, if_false]
  exact ⟨trivial, trivial, trivial⟩

/-- The employer phase succeeds and keeps its navigation list when the
selector is present, the employer identifier is truthy, and the remaining
required steps succeed. The Next-button presence is arbitrary. -/
lemma employerPhase_ok (w : RunWorld) (env : RunEnv) (cfg : RunConfig)
    (navs acts : List String)
    (hE : w.employerSelectPresent = true)
    (hU : strTruthy (if strTruthy cfg.companyUUID then cfg.companyUUID
                     else env.companyUUID) = true)
    (hSel : w.selectOptionErr = none)
    (hB : w.bulkFilePresent = true) (hS : w.setFilesErr = none) :
    (employerPhase w env cfg navs acts).err = none ∧
    (employerPhase w env cfg navs acts).uploadDone = true ∧
    (employerPhase w env cfg navs acts).navs = navs := by
  simp only [employerPhase, hE, hU, hSel, Bool.not_true, Bool.false_eq_true,
    if_false]
  exact uploadPhase_ok w cfg navs _ hB hS

/-- The post-navigation continue pass succeeds under the same conditions,
whether or not it re-navigates. -/
lemma postNavContinuePhase_ok (w : RunWorld) (env : RunEnv) (cfg : RunConfig)
    (navs acts : List String)
    (hgr : w.gotoBulkRetryErr = none)
    (hE : w.employerSelectPresent = true)
    (hU : strTruthy (if strTruthy cfg.companyUUID then cfg.companyUUID
                     else env.companyUUID) = true)
    (hSel : w.selectOptionErr = none)
    (hB : w.bulkFilePresent = true) (hS : w.setFilesErr = none) :
    (postNavContinuePhase w env cfg navs acts).err = none ∧
    (postNavContinuePhase w env cfg navs acts).uploadDone = true := by
  unfold postNavContinuePhase
  cases hrn : w.renavToBulk with
  | false =>
    simp only [Bool.false_eq_true, if_false]
    exact ⟨(employerPhase_ok w env cfg navs acts hE hU hSel hB hS).1,
           (employerPhase_ok w env cfg navs acts hE hU hSel hB hS).2.1⟩
  | true =>
    simp only [if_true, hgr]
    exact ⟨(employerPhase_ok w env cfg _ acts hE hU hSel hB hS).1,
           (employerPhase_ok w env cfg _ acts hE hU hSel hB hS).2.1⟩

/-- The bulk-navigation phase succeeds under the same conditions, whether or
not a navigation is needed. -/
lemma bulkNavPhase_ok (w : RunWorld) (env : RunEnv) (cfg : RunConfig)
    (navs acts : List String)
    (hg : w.gotoBulkErr = none) (hgr : w.gotoBulkRetryErr = none)
    (hE : w.employerSelectPresent = true)
    (hU : strTruthy (if strTruthy cfg.companyUUID then cfg.companyUUID
                     else env.companyUUID) = true)
    (hSel : w.selectOptionErr = none)
    (hB : w.bulkFilePresent = true) (hS : w.setFilesErr = none) :
    (bulkNavPhase w env cfg navs acts).err = none ∧
    (bulkNavPhase w env cfg navs acts).uploadDone = true := by
  unfold bulkNavPhase
  cases hu : (w.urlAfter2FA != bulkUrl) with
  | false =>
    simp only [Bool.false_eq_true, if_false]
    exact postNavContinuePhase_ok w env cfg navs acts hgr hE hU hSel hB hS
  | true =>
    simp only [if_true, hg]
    exact postNavContinuePhase_ok w env cfg _ acts hgr hE hU hSel hB hS

/-- The whole try body succeeds when every required element is present and
every required operation succeeds; the presence of the tolerated optional
elements is arbitrary. -/
lemma tryBody_ok (w : RunWorld) (env : RunEnv) (cfg : RunConfig)
    (hgl : w.gotoLoginErr = none) (hotp : w.otpPresent = true)
    (hg : w.gotoBulkErr = none) (hgr : w.gotoBulkRetryErr = none)
    (hE : w.employerSelectPresent = true)
    (hU : strTruthy (if strTruthy cfg.companyUUID then cfg.companyUUID
                     else env.companyUUID) = true)
    (hSel : w.selectOptionErr = none)
    (hB : w.bulkFilePresent = true) (hS : w.setFilesErr = none) :
    (tryBody w env cfg).err = none ∧ (tryBody w env cfg).uploadDone = true := by
  simp only [tryBody, hgl, hotp, Bool.not_true, Bool.false_eq_true, if_false]
  exact bulkNavPhase_ok w env cfg _ _ hg hgr hE hU hSel hB hS

/-- When the employer selector is present but both the argument and the
configured employer identifier are falsy, the employer phase raises the
missing-identifier error and changes nothing else. -/
lemma employerPhase_uuidMissing (w : RunWorld) (env : RunEnv) (cfg : RunConfig)
    (navs acts : List String)
    (hE : w.employerSelectPresent = true)
    (hcfg : strTruthy cfg.companyUUID = false)
    (henv : strTruthy env.companyUUID = false) :
    employerPhase w env cfg navs acts =
      { navs := navs, actions := acts, uploadDone := false,
        err := some uuidRequiredMsg } := by
  simp only [employerPhase, hE, hcfg, henv, Bool.not_true, Bool.false_eq_true,
    if_false, Bool.not_false, if_true]

/-- When the try body reaches the employer phase with a falsy employer
identifier, it ends with the missing-identifier error, after having
navigated to the login page and without uploading. -/
lemma tryBody_uuidMissing (w : RunWorld) (env : RunEnv) (cfg : RunConfig)
    (hgl : w.gotoLoginErr = none) (hotp : w.otpPresent = true)
    (hg : w.gotoBulkErr = none) (hgr : w.gotoBulkRetryErr = none)
    (hE : w.employerSelectPresent = true)
    (hcfg : strTruthy cfg.companyUUID = false)
    (henv : strTruthy env.companyUUID = false) :
    (tryBody w env cfg).err = some uuidRequiredMsg ∧
    loginUrl ∈ (tryBody w env cfg).navs ∧
    (tryBody w env cfg).uploadDone = false := by
  simp only [tryBody, bulkNavPhase, postNavContinuePhase, hgl, hotp, hg, hgr,
    Bool.not_true, Bool.false_eq_true, if_false]
  split
  · split
    · rw [employerPhase_uuidMissing w env cfg _ _ hE hcfg henv]
      exact ⟨rfl, by simp, rfl⟩
    · rw [employerPhase_uuidMissing w env cfg _ _ hE hcfg henv]
      exact ⟨rfl, by simp, rfl⟩
  · split
    · rw [employerPhase_uuidMissing w env cfg _ _ hE hcfg henv]
      exact ⟨rfl, by simp, rfl⟩
    · rw [employerPhase_uuidMissing w env cfg _ _ hE hcfg henv]
      exact ⟨rfl, by simp, rfl⟩

/-- Reduction of the Except bind on a success value. -/
lemma except_bind_ok {α β : Type} (a : α) (f : α → Except String β) :
    (Except.ok a >>= f) = f a := rfl

/-- Reduction of the Except bind on an error value. -/
lemma except_bind_error {α β : Type} (e : String) (f : α → Except String β) :
    ((Except.error e : Except String α) >>= f) = Except.error e := rfl

/-- A successful `serializeRows` yields exactly one row per input record. -/
lemma serializeRows_length (l : List JsVal) (r : List String)
    (h : serializeRows l = Except.ok r) : r.length = l.length := by
  induction l generalizing r with
  | nil =>
    simp only [serializeRows] at h
    cases h
    rfl
  | cons d ds ih =>
    rw [serializeRows] at h
    cases hr : serializeRow d with
    | error e => rw [hr] at h; exact absurd h (by simp [Bind.bind, Except.bind])
    | ok row =>
      rw [hr] at h
      cases hrest : serializeRows ds with
      | error e =>
        rw [hrest] at h
        exact absurd h (by simp [Bind.bind, Except.bind])
      | ok rest =>
        rw [hrest] at h
        simp only [Bind.bind, Except.bind, Pure.pure, Except.pure,
          Except.ok.injEq] at h
        subst h
        simp [ih rest hrest]

/-- A successful `serializeRows` puts the row of input record `i` at output
position `i`: row order equals input order. -/
lemma serializeRows_get (l : List JsVal) (r : List String)
    (h : serializeRows l = Except.ok r) :
    ∀ i : Nat, r.get? i = (l.get? i).bind fun d => (serializeRow d).toOption := by
  induction l generalizing r with
  | nil =>
    simp only [serializeRows] at h
    cases h
    intro i
    simp
  | cons d ds ih =>
    rw [serializeRows] at h
    cases hr : serializeRow d with
    | error e => rw [hr] at h; exact absurd h (by simp [Bind.bind, Except.bind])
    | ok row =>
      rw [hr] at h
      cases hrest : serializeRows ds with
      | error e =>
        rw [hrest] at h
        exact absurd h (by simp [Bind.bind, Except.bind])
      | ok rest =>
        rw [hrest] at h
        simp only [Bind.bind, Except.bind, Pure.pure, Except.pure,
          Except.ok.injEq] at h
        subst h
        intro i
        cases i with
        | zero => simp [hr, Except.toOption]
        | succ n => simpa using ih rest hrest n

/-- C1: for every non-empty JSON array of driver records accepted by the
endpoint (one whose serialization does not throw), the serialized TSV
content equals the fixed header row followed by exactly one row per input
record, rows in the same order as the input array, each row being the seven
field values of the record joined by a tab character in the fixed column
order. -/
theorem C1_tsv_serialization (drivers : List JsVal) (rows : List String)
    (hne : drivers ≠ [])
    (hrows : serializeRows drivers = Except.ok rows) :
    tsvContent drivers =
      Except.ok (String.intercalate "\n" (tsvHeader :: rows)) ∧
    rows.length = drivers.length ∧
    (∀ i : Nat, rows.get? i =
      (drivers.get? i).bind fun d => (serializeRow d).toOption) ∧
    (∀ (d : JsVal) (row : String), serializeRow d = Except.ok row →
      ∃ v1 v2 v3 v4 v5 v6 v7,
        d.getField "LastName" = Except.ok v1 ∧
        d.getField "FirstName" = Except.ok v2 ∧
        d.getField "DOB" = Except.ok v3 ∧
        d.getField "CDL" = Except.ok v4 ∧
        d.getField "Country" = Except.ok v5 ∧
        d.getField "State" = Except.ok v6 ∧
        d.getField "QueryType" = Except.ok v7 ∧
        row = String.intercalate "\t"
          [jsToString v1, jsToString v2, jsToString v3, jsToString v4,
           jsToString v5, jsToString v6, jsToString v7]) := by
  refine ⟨?_, serializeRows_length drivers rows hrows,
    serializeRows_get drivers rows hrows, ?_⟩
  · rw [tsvContent]
    rw [hrows]
    rfl
  · intro d row h
    cases d with
    | jsNull => exact absurd h (by simp [serializeRow, JsVal.getField, except_bind_error])
    | jsUndefined => exact absurd h (by simp [serializeRow, JsVal.getField, except_bind_error])
    | str s =>
      refine ⟨.jsUndefined, .jsUndefined, .jsUndefined, .jsUndefined,
        .jsUndefined, .jsUndefined, .jsUndefined,
        rfl, rfl, rfl, rfl, rfl, rfl, rfl, ?_⟩
      simpa [serializeRow, JsVal.getField, except_bind_ok] using h.symm
    | num n =>
      refine ⟨.jsUndefined, .jsUndefined, .jsUndefined, .jsUndefined,
        .jsUndefined, .jsUndefined, .jsUndefined,
        rfl, rfl, rfl, rfl, rfl, rfl, rfl, ?_⟩
      simpa [serializeRow, JsVal.getField, except_bind_ok] using h.symm
    | boolean b =>
      refine ⟨.jsUndefined, .jsUndefined, .jsUndefined, .jsUndefined,
        .jsUndefined, .jsUndefined, .jsUndefined,
        rfl, rfl, rfl, rfl, rfl, rfl, rfl, ?_⟩
      simpa [serializeRow, JsVal.getField, except_bind_ok] using h.symm
    | obj fields =>
      refine ⟨_, _, _, _, _, _, _, rfl, rfl, rfl, rfl, rfl, rfl, rfl, ?_⟩
      simpa [serializeRow, JsVal.getField, except_bind_ok] using h.symm

/-- C1 witness: the theorem applied to the concrete single-record README
payload. -/
theorem C1_tsv_serialization_witness :
    tsvContent [sampleDriver] =
      Except.ok (String.intercalate "\n"
        (tsvHeader :: ["Doe\tJohn\t01/01/1980\t123456789\tUS\tNY\t1"])) :=
  (C1_tsv_serialization [sampleDriver]
    ["Doe\tJohn\t01/01/1980\t123456789\tUS\tNY\t1"] (by simp) rfl).1

/-- C2: for every request whose body is an empty array or not an array at
all (and which passes the API-key middleware), the endpoint answers 400 and
performs neither the TSV file write nor the automation invocation. -/
theorem C2_empty_input_rejected (senv : ServerEnv) (req : HttpRequest)
    (w : RunWorld) (ts : Nat)
    (hauth : authenticateAPIKey senv.apiKey req.xApiKey = AuthOutcome.proceed)
    (hbody : req.body = ReqBody.notArray ∨ req.body = ReqBody.array []) :
    (uploadDriversHandler senv req w ts).response =
      Response.badRequest "Invalid input. Expected a non-empty array of drivers." ∧
    (uploadDriversHandler senv req w ts).response.status = 400 ∧
    (uploadDriversHandler senv req w ts).fileWritten = none ∧
    (uploadDriversHandler senv req w ts).runInvoked = false := by
  rcases hbody with h | h <;>
    simp [uploadDriversHandler, hauth, h, Response.status]

/-- C2 witness: a concrete empty-array request is answered 400 with no file
write and no automation run. -/
theorem C2_empty_input_rejected_witness :
    (uploadDriversHandler demoEnv { demoReq with body := ReqBody.array [] }
        happyWorld 7).response.status = 400 ∧
    (uploadDriversHandler demoEnv { demoReq with body := ReqBody.array [] }
        happyWorld 7).runInvoked = false :=
  ⟨(C2_empty_input_rejected demoEnv _ happyWorld 7 rfl (Or.inr rfl)).2.1,
   (C2_empty_input_rejected demoEnv _ happyWorld 7 rfl (Or.inr rfl)).2.2.2⟩

/-- C8: each of the seven field values is passed into the TSV output through
JavaScript template-literal stringification only: the row is the seven
stringified fields joined by tabs, a string value appears verbatim with no
validation or escaping (embedded tab and newline characters included), and
no transformation beyond that implicit stringification is applied to
non-string values. -/
theorem C8_field_passthrough :
    (∀ v1 v2 v3 v4 v5 v6 v7 : JsVal,
      serializeRow (JsVal.obj
        [("LastName", v1), ("FirstName", v2), ("DOB", v3), ("CDL", v4),
         ("Country", v5), ("State", v6), ("QueryType", v7)]) =
      Except.ok (String.intercalate "\t"
        [jsToString v1, jsToString v2, jsToString v3, jsToString v4,
         jsToString v5, jsToString v6, jsToString v7])) ∧
    (∀ s : String, jsToString (JsVal.str s) = s) ∧
    serializeRow (JsVal.obj
      [("LastName", JsVal.str "A\tB"), ("FirstName", JsVal.str "C\nD"),
       ("DOB", JsVal.num 5), ("CDL", JsVal.boolean true),
       ("Country", JsVal.jsNull), ("State", JsVal.jsUndefined),
       ("QueryType", JsVal.str "ok")]) =
      Except.ok "A\tB\tC\nD\t5\ttrue\tnull\tundefined\tok" :=
  ⟨fun _ _ _ _ _ _ _ => rfl, fun _ => rfl, rfl⟩

/-- C3 counterexample: at a concrete failure (the login navigation throws)
with a working screenshot, `run` resolves instead of rejecting, so the
original error is not surfaced to the caller; the error was only caught and
logged internally. -/
theorem C3_counterexample :
    (run navFailWorld envDemo cfgDemo).result = RunResult.resolved ∧
    (run navFailWorld envDemo cfgDemo).caughtErr =
      some "net::ERR_CONNECTION_REFUSED" ∧
    (run navFailWorld envDemo cfgDemo).screenshotTaken = true ∧
    (run navFailWorld envDemo cfgDemo).contextClosed = true ∧
    (run navFailWorld envDemo cfgDemo).browserClosed = true :=
  ⟨rfl, rfl, rfl, rfl, rfl⟩

/-- C3 amended: for every failure raised inside the try block of `run`, a
screenshot capture is attempted and the context and browser are closed by
the finally block; however the original error is not rethrown: when the
screenshot succeeds, `run` resolves normally (the error is swallowed), and
when the screenshot itself fails, the screenshot error propagates in place
of the original one. -/
theorem C3_amended (w : RunWorld) (env : RunEnv) (cfg : RunConfig) (e : String)
    (hl : w.launchErr = none) (hc : w.newContextErr = none)
    (hp : w.newPageErr = none)
    (hbody : (tryBody w env cfg).err = some e) :
    (run w env cfg).caughtErr = some e ∧
    (run w env cfg).contextClosed = true ∧
    (run w env cfg).browserClosed = true ∧
    (w.screenshotErr = none →
      (run w env cfg).screenshotTaken = true ∧
      (run w env cfg).result = RunResult.resolved) ∧
    (∀ e2, w.screenshotErr = some e2 →
      (run w env cfg).result = RunResult.rejected e2) := by
  simp only [run, hl, hc, hp, hbody]
  cases hs : w.screenshotErr <;> simp [hs]

/-- C3 witness: the amended theorem applied at the concrete failing
navigation world. -/
theorem C3_amended_witness :
    (run navFailWorld envDemo cfgDemo).caughtErr =
      some "net::ERR_CONNECTION_REFUSED" ∧
    (run navFailWorld envDemo cfgDemo).contextClosed = true :=
  ⟨(C3_amended navFailWorld envDemo cfgDemo "net::ERR_CONNECTION_REFUSED"
      rfl rfl rfl rfl).1,
   (C3_amended navFailWorld envDemo cfgDemo "net::ERR_CONNECTION_REFUSED"
      rfl rfl rfl rfl).2.1⟩

/-- A `run` argument pair with a file path but no employer identifier. -/
def noUuidCfg : RunConfig :=
  { dataFilePath := some "data/upload_1.tsv", companyUUID := none }

/-- C4 counterexample: calling `run` with no employer identifier argument
and no configured COMPANY_UUID, in a world where every portal step works,
does navigate the browser (to the login page and then to the bulk upload
page) before the identifier check fires, and `run` then resolves instead of
rejecting (the thrown identifier error is swallowed by the top-level
catch). -/
theorem C4_counterexample :
    (run happyWorld envDemo noUuidCfg).navs = [loginUrl, bulkUrl] ∧
    (run happyWorld envDemo noUuidCfg).caughtErr = some uuidRequiredMsg ∧
    (run happyWorld envDemo noUuidCfg).result = RunResult.resolved ∧
    (run happyWorld envDemo noUuidCfg).uploadDone = false :=
  ⟨rfl, rfl, rfl, rfl⟩

/-- C4 amended: when `run` has no truthy employer identifier from either its
argument or the COMPANY_UUID configuration, and the portal steps up to the
employer selector succeed, the automation first navigates to the login page,
only then raises the missing-identifier error at the employer-selection
step, performs no upload, and (because the top-level catch swallows the
error when the screenshot succeeds) resolves rather than rejects. -/
theorem C4_amended (w : RunWorld) (env : RunEnv) (cfg : RunConfig)
    (hl : w.launchErr = none) (hc : w.newContextErr = none)
    (hp : w.newPageErr = none)
    (hgl : w.gotoLoginErr = none) (hotp : w.otpPresent = true)
    (hg : w.gotoBulkErr = none) (hgr : w.gotoBulkRetryErr = none)
    (hE : w.employerSelectPresent = true)
    (hcfg : strTruthy cfg.companyUUID = false)
    (henv : strTruthy env.companyUUID = false) :
    (run w env cfg).caughtErr = some uuidRequiredMsg ∧
    loginUrl ∈ (run w env cfg).navs ∧
    (run w env cfg).uploadDone = false ∧
    (w.screenshotErr = none → (run w env cfg).result = RunResult.resolved) := by
  obtain ⟨herr, hmem, hupl⟩ := tryBody_uuidMissing w env cfg hgl hotp hg hgr hE hcfg henv
  simp only [run, hl, hc, hp, herr]
  cases hs : w.screenshotErr <;> simp [hs, hmem, hupl]

/-- C4 witness: the amended theorem applied at the happy portal world with
no identifier anywhere. -/
theorem C4_amended_witness :
    (run happyWorld envDemo noUuidCfg).caughtErr = some uuidRequiredMsg ∧
    loginUrl ∈ (run happyWorld envDemo noUuidCfg).navs :=
  ⟨(C4_amended happyWorld envDemo noUuidCfg rfl rfl rfl rfl rfl rfl rfl rfl
      rfl rfl).1,
   (C4_amended happyWorld envDemo noUuidCfg rfl rfl rfl rfl rfl rfl rfl rfl
      rfl rfl).2.1⟩

/-- C5 counterexample: at a concrete world where the browser launch itself
fails, `run` rejects and the endpoint does answer 500 with the message, but
the session-close step never executes, because launch, context creation and
page creation happen before the try and the finally is never entered. -/
theorem C5_counterexample :
    (uploadDriversHandler demoEnv demoReq launchFailWorld 42).response =
      Response.serverError "Automation failed"
        "browserType.launch: Executable does not exist" ∧
    (run launchFailWorld { companyUUID := none }
      { dataFilePath := some (filePathFor 42),
        companyUUID := some "employer-1" }).result =
      RunResult.rejected "browserType.launch: Executable does not exist" ∧
    (run launchFailWorld { companyUUID := none }
      { dataFilePath := some (filePathFor 42),
        companyUUID := some "employer-1" }).contextClosed = false ∧
    (run launchFailWorld { companyUUID := none }
      { dataFilePath := some (filePathFor 42),
        companyUUID := some "employer-1" }).browserClosed = false :=
  ⟨rfl, rfl, rfl, rfl⟩

/-- C5 amended: for every request in which the invoked `run` call rejects
(the request was accepted and its serialization succeeded, so `run` was
actually awaited), the endpoint answers 500 with a body containing that
error message; the session-close step of the finally block executes before
the rejection propagates whenever browser launch, context creation and page
creation succeeded (the only such rejection being a screenshot failure
inside the catch), while a rejection raised by those creation steps
propagates without any close. -/
theorem C5_amended (senv : ServerEnv) (req : HttpRequest) (w : RunWorld)
    (ts : Nat) (drivers : List JsVal) (content : String) (msg : String)
    (hauth : authenticateAPIKey senv.apiKey req.xApiKey = AuthOutcome.proceed)
    (hbody : req.body = ReqBody.array drivers) (hne : drivers ≠ [])
    (hcontent : tsvContent drivers = Except.ok content)
    (hrej : (run w { companyUUID := senv.companyUUID }
      { dataFilePath := some (filePathFor ts),
        companyUUID := some req.companyUuidParam }).result =
        RunResult.rejected msg) :
    (uploadDriversHandler senv req w ts).response =
      Response.serverError "Automation failed" msg ∧
    (uploadDriversHandler senv req w ts).response.status = 500 ∧
    (uploadDriversHandler senv req w ts).runInvoked = true ∧
    (w.launchErr = none → w.newContextErr = none → w.newPageErr = none →
      (run w { companyUUID := senv.companyUUID }
        { dataFilePath := some (filePathFor ts),
          companyUUID := some req.companyUuidParam }).contextClosed = true ∧
      (run w { companyUUID := senv.companyUUID }
        { dataFilePath := some (filePathFor ts),
          companyUUID := some req.companyUuidParam }).browserClosed = true) := by
  have hni := isEmpty_false_of_ne_nil hne
  refine ⟨?_, ?_, ?_, ?_⟩
  · simp only [uploadDriversHandler, hauth, hbody, hni, Bool.false_eq_true,
      if_false, hcontent, hrej]
  · simp only [uploadDriversHandler, hauth, hbody, hni, Bool.false_eq_true,
      if_false, hcontent, hrej, Response.status]
  · simp only [uploadDriversHandler, hauth, hbody, hni, Bool.false_eq_true,
      if_false, hcontent, hrej]
  · intro hl hc hp
    simp only [run, hl, hc, hp]
    cases hb : (tryBody w { companyUUID := senv.companyUUID }
        { dataFilePath := some (filePathFor ts),
          companyUUID := some req.companyUuidParam }).err <;>
      cases hs : w.screenshotErr <;> simp

/-- C5 witness: the amended theorem applied at a concrete world in which the
login navigation fails and the error-path screenshot also fails, so that
`run` genuinely rejects (with the screenshot error) after closing the
session. -/
theorem C5_amended_witness :
    (uploadDriversHandler demoEnv demoReq screenshotFailWorld 42).response =
      Response.serverError "Automation failed" "page.screenshot: Target closed" ∧
    (run screenshotFailWorld { companyUUID := none }
      { dataFilePath := some (filePathFor 42),
        companyUUID := some "employer-1" }).contextClosed = true :=
  ⟨(C5_amended demoEnv demoReq screenshotFailWorld 42 [sampleDriver]
      "LastName\tFirstName\tDOB\tCDL\tCountry\tState\tQueryType\nDoe\tJohn\t01/01/1980\t123456789\tUS\tNY\t1"
      "page.screenshot: Target closed" rfl rfl (by simp) rfl rfl).1,
   ((C5_amended demoEnv demoReq screenshotFailWorld 42 [sampleDriver]
      "LastName\tFirstName\tDOB\tCDL\tCountry\tState\tQueryType\nDoe\tJohn\t01/01/1980\t123456789\tUS\tNY\t1"
      "page.screenshot: Target closed" rfl rfl (by simp) rfl rfl).2.2.2
      rfl rfl rfl).1⟩

/-- C6 counterexample: the 2FA one-time-code input does not tolerate
absence: in a concrete world where only this input is missing, the unguarded
fill times out, the error aborts the automation and reaches the top-level
catch, and no upload happens, exactly as for a missing required element. -/
theorem C6_counterexample :
    (run otpMissingWorld envDemo cfgDemo).caughtErr = some otpTimeoutMsg ∧
    (run otpMissingWorld envDemo cfgDemo).uploadDone = false ∧
    (run otpMissingWorld envDemo cfgDemo).screenshotTaken = true :=
  ⟨rfl, rfl, rfl⟩

/-- C6 amended: the heuristic lookups for the login email, password, submit,
continue and next buttons tolerate the absence of their element (the run
logs and continues, and still completes the upload), while the 2FA
one-time-code input, the employer selector #EmployerId and the upload
control #BulkFile are required: if any of them is not found (the latter two
within their fixed 10-second timeout), the automation aborts with the
timeout error, which reaches the top-level catch, and the upload is never
performed. -/
theorem C6_amended :
    (∀ (w : RunWorld) (env : RunEnv) (cfg : RunConfig),
      w.gotoLoginErr = none → w.otpPresent = true → w.gotoBulkErr = none →
      w.gotoBulkRetryErr = none → w.employerSelectPresent = true →
      strTruthy (if strTruthy cfg.companyUUID then cfg.companyUUID
                 else env.companyUUID) = true →
      w.selectOptionErr = none → w.bulkFilePresent = true →
      w.setFilesErr = none →
      (tryBody w env cfg).err = none ∧ (tryBody w env cfg).uploadDone = true) ∧
    ((tryBody otpMissingWorld envDemo cfgDemo).err = some otpTimeoutMsg ∧
     (tryBody otpMissingWorld envDemo cfgDemo).uploadDone = false) ∧
    ((tryBody employerMissingWorld envDemo cfgDemo).err =
        some employerTimeoutMsg ∧
     (tryBody employerMissingWorld envDemo cfgDemo).uploadDone = false) ∧
    ((tryBody bulkFileMissingWorld envDemo cfgDemo).err =
        some bulkFileTimeoutMsg ∧
     (tryBody bulkFileMissingWorld envDemo cfgDemo).uploadDone = false) :=
  ⟨fun w env cfg hgl hotp hg hgr hE hU hSel hB hS =>
      tryBody_ok w env cfg hgl hotp hg hgr hE hU hSel hB hS,
   ⟨rfl, rfl⟩, ⟨rfl, rfl⟩, ⟨rfl, rfl⟩⟩

/-- C6 witness: the tolerance part of the amended theorem applied at the
concrete world in which every optional element is absent but all required
elements are present: the upload still completes. -/
theorem C6_amended_witness :
    (tryBody optionalAbsentWorld envDemo cfgDemo).err = none ∧
    (tryBody optionalAbsentWorld envDemo cfgDemo).uploadDone = true :=
  C6_amended.1 optionalAbsentWorld envDemo cfgDemo rfl rfl rfl rfl rfl rfl
    rfl rfl rfl

/-- C7: for every request that passes authentication and validation, whose
serialization succeeds (so the automation call is actually awaited), and in
which the automation call resolves, the endpoint answers 200 with the
success message and the path of the TSV file generated for that request. -/
theorem C7_success_response (senv : ServerEnv) (req : HttpRequest)
    (w : RunWorld) (ts : Nat) (drivers : List JsVal) (content : String)
    (hauth : authenticateAPIKey senv.apiKey req.xApiKey = AuthOutcome.proceed)
    (hbody : req.body = ReqBody.array drivers) (hne : drivers ≠ [])
    (hcontent : tsvContent drivers = Except.ok content)
    (hres : (run w { companyUUID := senv.companyUUID }
      { dataFilePath := some (filePathFor ts),
        companyUUID := some req.companyUuidParam }).result =
        RunResult.resolved) :
    (uploadDriversHandler senv req w ts).response =
      Response.ok "Automation completed successfully" (filePathFor ts) ∧
    (uploadDriversHandler senv req w ts).response.status = 200 ∧
    (uploadDriversHandler senv req w ts).fileWritten =
      some (filePathFor ts, content) := by
  have hni := isEmpty_false_of_ne_nil hne
  refine ⟨?_, ?_, ?_⟩ <;>
    simp only [uploadDriversHandler, hauth, hbody, hni, Bool.false_eq_true,
      if_false, hcontent, hres, Response.status]

/-- C7 witness: the theorem applied at the fully successful concrete world
and the sample request. -/
theorem C7_success_response_witness :
    (uploadDriversHandler demoEnv demoReq happyWorld 42).response =
      Response.ok "Automation completed successfully" (filePathFor 42) :=
  (C7_success_response demoEnv demoReq happyWorld 42 [sampleDriver]
    "LastName\tFirstName\tDOB\tCDL\tCountry\tState\tQueryType\nDoe\tJohn\t01/01/1980\t123456789\tUS\tNY\t1"
    rfl rfl (by simp) rfl rfl).1

/-- A server environment whose API_KEY is set to the empty string. -/
def emptyKeyEnv : ServerEnv := { apiKey := some "", companyUUID := none }

/-- C9 counterexample: with API_KEY set to the empty string (a set but falsy
value) and no x-api-key header, the middleware lets the request through and
the automation runs, instead of rejecting with 403: `!validApiKey` uses
JavaScript truthiness, so an empty API_KEY disables authentication. -/
theorem C9_counterexample :
    authenticateAPIKey (some "") none = AuthOutcome.proceed ∧
    (uploadDriversHandler emptyKeyEnv demoReq happyWorld 7).runInvoked = true ∧
    (uploadDriversHandler emptyKeyEnv demoReq happyWorld 7).response =
      Response.ok "Automation completed successfully" (filePathFor 7) :=
  ⟨rfl, rfl, rfl⟩

/-- C9 amended: if API_KEY is set to a non-empty string, every request whose
x-api-key header is missing or differs from it is rejected with 403 before
any file write or automation invocation, and a request with the matching
header proceeds; if API_KEY is unset or set to the empty string,
authentication is disabled and every request proceeds to the handler
regardless of the header. -/
theorem C9_amended (senv : ServerEnv) (req : HttpRequest) (w : RunWorld)
    (ts : Nat) :
    (∀ k, senv.apiKey = some k → k ≠ "" → req.xApiKey ≠ some k →
      (uploadDriversHandler senv req w ts).response =
        Response.forbidden "Forbidden: Invalid or missing API Key" ∧
      (uploadDriversHandler senv req w ts).response.status = 403 ∧
      (uploadDriversHandler senv req w ts).fileWritten = none ∧
      (uploadDriversHandler senv req w ts).runInvoked = false) ∧
    ((senv.apiKey = none ∨ senv.apiKey = some "") →
      authenticateAPIKey senv.apiKey req.xApiKey = AuthOutcome.proceed) ∧
    (∀ k, senv.apiKey = some k → k ≠ "" → req.xApiKey = some k →
      authenticateAPIKey senv.apiKey req.xApiKey = AuthOutcome.proceed) := by
  refine ⟨?_, ?_, ?_⟩
  · intro k hk hkne hx
    have hf : authenticateAPIKey senv.apiKey req.xApiKey =
        AuthOutcome.forbidden := by
      unfold authenticateAPIKey
      rw [hk]
      cases hxk : req.xApiKey with
      | none => simp [strTruthy, hkne]
      | some h =>
        have hhk : h ≠ k := fun hh => hx (hxk.trans (by rw [hh]))
        simp [strTruthy, hkne, hhk]
    simp [uploadDriversHandler, hf, Response.status]
  · intro hdis
    rcases hdis with h | h <;> simp [authenticateAPIKey, h, strTruthy]
  · intro k hk hkne hx
    simp [authenticateAPIKey, hk, hx, strTruthy, hkne]

/-- C9 witness: the amended theorem applied with a concrete non-empty
API_KEY and a missing header: 403, no write, no automation. -/
theorem C9_amended_witness :
    (uploadDriversHandler { apiKey := some "secret-key", companyUUID := none }
        demoReq happyWorld 7).response =
      Response.forbidden "Forbidden: Invalid or missing API Key" ∧
    (uploadDriversHandler { apiKey := some "secret-key", companyUUID := none }
        demoReq happyWorld 7).runInvoked = false :=
  ⟨((C9_amended { apiKey := some "secret-key", companyUUID := none } demoReq
      happyWorld 7).1 "secret-key" rfl (by decide) (by simp [demoReq])).1,
   ((C9_amended { apiKey := some "secret-key", companyUUID := none } demoReq
      happyWorld 7).1 "secret-key" rfl (by decide) (by simp [demoReq])).2.2.2⟩

/-- Every authenticated non-empty-array request whose serialization does not
throw is accepted: the file is written with the serialized content and the
automation is invoked. -/
lemma handler_accepted (senv : ServerEnv) (req : HttpRequest) (w : RunWorld)
    (ts : Nat) (drivers : List JsVal) (content : String)
    (hauth : authenticateAPIKey senv.apiKey req.xApiKey = AuthOutcome.proceed)
    (hbody : req.body = ReqBody.array drivers) (hne : drivers ≠ [])
    (hcontent : tsvContent drivers = Except.ok content) :
    (uploadDriversHandler senv req w ts).runInvoked = true ∧
    (uploadDriversHandler senv req w ts).fileWritten =
      some (filePathFor ts, content) ∧
    ∀ msg, (uploadDriversHandler senv req w ts).response ≠
      Response.badRequest msg := by
  have hni := isEmpty_false_of_ne_nil hne
  simp only [uploadDriversHandler, hauth, hbody, hni, Bool.false_eq_true,
    if_false, hcontent]
  split <;> simp

/-- An authenticated request whose single array element is the JSON value
`null`, which lacks all seven fields. -/
def nullElemReq : HttpRequest :=
  { xApiKey := none, companyUuidParam := "employer-1",
    body := .array [JsVal.jsNull] }

/-- C10 counterexample: a body whose single element is `null` lacks all
seven named fields yet is NOT accepted: the first property access throws a
TypeError inside the rows map, so the handler answers 500 with that message,
writes no file and never invokes the automation. -/
theorem C10_counterexample :
    (uploadDriversHandler demoEnv nullElemReq happyWorld 7).response =
      Response.serverError "Automation failed" (nullFieldAccessMsg "LastName") ∧
    (uploadDriversHandler demoEnv nullElemReq happyWorld 7).response.status = 500 ∧
    (uploadDriversHandler demoEnv nullElemReq happyWorld 7).fileWritten = none ∧
    (uploadDriversHandler demoEnv nullElemReq happyWorld 7).runInvoked = false :=
  ⟨rfl, rfl, rfl, rfl⟩

/-- C10 amended: the endpoint validates only that the body is a non-empty
array, and any element on which the seven property accesses succeed — an
object lacking any of the named fields, or a primitive such as a number —
is accepted, with each absent field serialized into its TSV column as the
literal text `undefined`; however an element that is `null` (or
`undefined`) is not accepted: its first property access throws a TypeError,
which the handler catch answers with 500, with no file write and no
automation invocation. -/
theorem C10_no_field_validation :
    (∀ (senv : ServerEnv) (req : HttpRequest) (w : RunWorld) (ts : Nat)
       (drivers : List JsVal) (content : String),
      authenticateAPIKey senv.apiKey req.xApiKey = AuthOutcome.proceed →
      req.body = ReqBody.array drivers → drivers ≠ [] →
      tsvContent drivers = Except.ok content →
      (uploadDriversHandler senv req w ts).runInvoked = true ∧
      (uploadDriversHandler senv req w ts).fileWritten =
        some (filePathFor ts, content) ∧
      ∀ msg, (uploadDriversHandler senv req w ts).response ≠
        Response.badRequest msg) ∧
    (∀ (fields : List (String × JsVal)) (k : String),
      fields.lookup k = none →
      (JsVal.obj fields).getField k = Except.ok JsVal.jsUndefined) ∧
    jsToString JsVal.jsUndefined = "undefined" ∧
    serializeRow (JsVal.obj []) = Except.ok
      "undefined\tundefined\tundefined\tundefined\tundefined\tundefined\tundefined" ∧
    serializeRow (JsVal.num 5) = Except.ok
      "undefined\tundefined\tundefined\tundefined\tundefined\tundefined\tundefined" ∧
    tsvContent [JsVal.jsNull] =
      Except.error (nullFieldAccessMsg "LastName") := by
  refine ⟨fun senv req w ts drivers content hauth hbody hne hcontent =>
    handler_accepted senv req w ts drivers content hauth hbody hne hcontent,
    ?_, rfl, rfl, rfl, rfl⟩
  intro fields k hlk
  simp [JsVal.getField, hlk]

/-- An authenticated request whose single array element is a bare number,
lacking all seven fields. -/
def nonObjReq : HttpRequest :=
  { xApiKey := none, companyUuidParam := "employer-1",
    body := .array [JsVal.num 5] }

/-- C10 witness: the acceptance part of the amended theorem applied at a
concrete request whose single element is a number lacking every field; the
request is accepted, and a missing key on an object reads as
`undefined`. -/
theorem C10_no_field_validation_witness :
    (uploadDriversHandler demoEnv nonObjReq happyWorld 7).runInvoked = true ∧
    (JsVal.obj []).getField "LastName" = Except.ok JsVal.jsUndefined :=
  ⟨(C10_no_field_validation.1 demoEnv nonObjReq happyWorld 7 [JsVal.num 5]
      "LastName\tFirstName\tDOB\tCDL\tCountry\tState\tQueryType\nundefined\tundefined\tundefined\tundefined\tundefined\tundefined\tundefined"
      rfl rfl (by simp) rfl).1,
   C10_no_field_validation.2.1 [] "LastName" rfl⟩
